import Mathlib

/-!
Shallow embedding of src/src/metaopt/core/worker/consumer.py.

The consumer evaluates one trial by writing a config file and a results
file placeholder into a fresh workspace directory, launching the user
script as a subprocess with the results path injected in the child
environment, waiting for it, parsing the results file on a zero exit
code, and finally either pushing the completed trial or recycling the
failed trial with a keyed database write.

External collaborators (the space builder, the JSON converter, the
database, the experiment store, the tempfile name generator and the
operating system primitives Popen and poll) are parameters of the model,
collected in the Sys structure.  Observable side effects (directories
and files on disk, calls to wait and to the parser, the commands and
environments handed to Popen, pushed trials, keyed database writes) are
threaded through an explicit WState record.
-/

namespace MetaOpt

/-- One scalar value carried by a result record. -/
inductive Scalar where
  | str (s : String)
  | num (n : Int)
  deriving DecidableEq

/-- Modelled from the spec: a Trial.Result record with name, type and value,
as constructed by consumer.py from each parsed record. -/
structure Trial.Result where
  name : String
  type : String
  value : Scalar
  deriving DecidableEq

/-- Modelled from the spec: the slice of a trial that consumer.py reads and
writes, namely its identity, its mutable status and its ordered results. -/
structure Trial where
  id : String
  status : String
  results : List Trial.Result
  deriving DecidableEq

/-- Modelled from the spec: the serialized form of a trial, as produced by
Trial.to_dict and written to the database. -/
structure TrialDict where
  id : String
  status : String
  results : List Trial.Result
  deriving DecidableEq

/-- Modelled from the spec: Trial.to_dict serializes the trial for storage. -/
def Trial.to_dict (t : Trial) : TrialDict :=
  { id := t.id, status := t.status, results := t.results }

/-- One record parsed from the results file by the JSON converter: a dict
with keys name, type and value. -/
structure ResRecord where
  name : String
  type : String
  value : Scalar
  deriving DecidableEq

/-- Search space of an experiment; collaborator data that consumer.py only
checks for presence and stores. -/
structure Space where
  dims : List String
  deriving DecidableEq

/-- Modelled from the spec: the slice of the Experiment object consumer.py
reads, namely its name, its space and the user_script entry of its
metadata. -/
structure Experiment where
  name : String
  space : Option Space
  user_script : String
  deriving DecidableEq

/-- Exceptions a consumption run can raise: an OSError from Popen, a parse
error from the converter, or the RuntimeError of the constructor. -/
inductive PyErr where
  | osError (msg : String)
  | parseError (msg : String)
  | runtimeError (msg : String)
  deriving DecidableEq

/-- Outcome of calling subprocess.Popen followed by the immediate poll:
either the constructor raises an OSError (executable missing, permission
denied), or a process starts and poll reports either an already available
exit status or none when the process is still running. -/
inductive PopenOutcome where
  | raises (msg : String)
  | started (poll : Option Int)
  deriving DecidableEq

/-- External collaborators and system inputs of one consumption run: the
ambient process environment, the unique name tokens the tempfile
primitives allocate, the command builder of the space template, the
behavior of Popen for a given command and environment, the exit code that
wait returns for a process still running at poll time, and the results
parser of the converter. -/
structure Sys where
  osEnviron : String → Option String
  dirToken : String
  cfgToken : String
  resToken : String
  build_to : String → Trial → List String
  popen : List String → (String → Option String) → PopenOutcome
  waitResult : Int
  parse : String → Except String (List ResRecord)

/-- One keyed conditional write to the trials collection of the database. -/
structure DBWrite where
  collection : String
  document : TrialDict
  queryId : String
  deriving DecidableEq

/-- Observable effects of a run: directories that exist, files that exist
as directory and basename pairs, how many times wait and the parser were
called, the commands and environments handed to Popen, the trials pushed
as completed, and the keyed database writes. -/
structure WState where
  dirs : List String
  files : List (String × String)
  waitCalls : Nat
  parseCalls : Nat
  popenCmds : List (List String)
  popenEnvs : List (String → Option String)
  pushes : List Trial
  dbWrites : List DBWrite

/-- The consumer object after construction: the experiment, its non-none
space, the path of the user script, and the base temporary directory. -/
structure Consumer where
  experiment : Experiment
  space : Space
  script : String
  tmp_dir : String

/-- Embedding of Consumer.__init__: check that the space of the experiment
is present, raising RuntimeError when it is none, then create the base
temporary directory idempotently and record the fields.  The directory
list models the directories existing on disk. -/
def Consumer.init (experiment : Experiment) (tmpRoot : String) (dirs : List String) :
    Except PyErr Consumer × List String :=
  match experiment.space with
  | none =>
      (.error (.runtimeError
        "Experiment object provided to Consumer has not yet completed initialization."), dirs)
  | some sp =>
      let tmp_dir := tmpRoot ++ "/metaopt"
      let dirs1 := if dirs.contains tmp_dir then dirs else dirs ++ [tmp_dir]
      (.ok { experiment := experiment, space := sp,
             script := experiment.user_script, tmp_dir := tmp_dir }, dirs1)

/-- Basename of the config file allocated by NamedTemporaryFile. -/
def cfgBase (sys : Sys) : String := "trial_" ++ sys.cfgToken ++ ".conf"

/-- Basename of the results file allocated by NamedTemporaryFile. -/
def resBase (sys : Sys) : String := "results_" ++ sys.resToken ++ ".log"

/-- Full path of the config file inside a given workspace directory. -/
def cfgPathIn (sys : Sys) (wd : String) : String := wd ++ "/" ++ cfgBase sys

/-- Full path of the results file inside a given workspace directory. -/
def resPathIn (sys : Sys) (wd : String) : String := wd ++ "/" ++ resBase sys

/-- Path of the workspace directory that TemporaryDirectory allocates under
tmp_dir with the experiment name as leading token. -/
def Consumer.workdir (c : Consumer) (sys : Sys) : String :=
  c.tmp_dir ++ "/" ++ c.experiment.name ++ "_" ++ sys.dirToken

/-- The child environment built in launch_process: a copy of os.environ
with METAOPT_RESULTS_PATH set to the results file path. -/
def childEnv (sys : Sys) (results_filename : String) : String → Option String :=
  fun k => if k = "METAOPT_RESULTS_PATH" then some results_filename else sys.osEnviron k

/-- The command line built in launch_process for a given workspace
directory: the user script followed by the rendered arguments. -/
def Consumer.launchCmdIn (c : Consumer) (sys : Sys) (trial : Trial) (wd : String) :
    List String :=
  c.script :: sys.build_to (cfgPathIn sys wd) trial

/-- Embedding of Consumer.launch_process: build the child environment and
the command, call Popen (which may raise an OSError) and poll once; when
the poll reports a negative status the launch counts as failed and none
is returned without waiting; otherwise the handle is returned, here
represented by the exit code that a later wait will deliver. -/
def Consumer.launch_process (c : Consumer) (sys : Sys) (results_filename : String)
    (cmd_args : List String) (s : WState) : Except PyErr (Option Int) × WState :=
  let env := childEnv sys results_filename
  let command := c.script :: cmd_args
  let s1 := { s with popenCmds := s.popenCmds ++ [command],
                     popenEnvs := s.popenEnvs ++ [env] }
  match sys.popen command env with
  | .raises msg => (.error (.osError msg), s1)
  | .started (some rc) =>
      if rc < 0 then (.ok none, s1) else (.ok (some rc), s1)
  | .started none => (.ok (some sys.waitResult), s1)

/-- Embedding of Consumer._consume: allocate the two placeholder files,
render the command arguments, launch the script, wait for it, and on a
zero exit code parse the results file and fill the trial.  Returns the
pipeline result (populated trial or failure sentinel, or a raised
exception), the state of the trial object after the call, and the
effect state. -/
def Consumer._consume (c : Consumer) (sys : Sys) (trial : Trial) (workdirname : String)
    (s : WState) : Except PyErr (Option Trial) × Trial × WState :=
  let s1 := { s with files := s.files ++ [(workdirname, cfgBase sys),
                                          (workdirname, resBase sys)] }
  let cmd_args := sys.build_to (cfgPathIn sys workdirname) trial
  let r := c.launch_process sys (resPathIn sys workdirname) cmd_args s1
  match r.1 with
  | .error e => (.error e, trial, r.2)
  | .ok none => (.ok none, trial, r.2)
  | .ok (some proc) =>
      let s2 := { r.2 with waitCalls := r.2.waitCalls + 1 }
      let returncode := proc
      if returncode != 0 then
        (.ok none, trial, s2)
      else
        let s3 := { s2 with parseCalls := s2.parseCalls + 1 }
        match sys.parse (resPathIn sys workdirname) with
        | .error msg => (.error (.parseError msg), trial, s3)
        | .ok results =>
            let trial1 := { trial with
              results := results.map (fun res =>
                { name := res.name, type := res.type, value := res.value }) }
            (.ok (some trial1), trial1, s3)

/-- Teardown performed by the TemporaryDirectory scope on exit: the
directory and every file inside it are removed. -/
def removeTree (dir : String) (s : WState) : WState :=
  { s with dirs := s.dirs.filter (fun d => d != dir),
           files := s.files.filter (fun f => f.1 != dir) }

/-- Embedding of Consumer.consume: create the workspace directory, run
_consume inside the TemporaryDirectory scope (whose teardown runs whether
_consume returns or raises), then either push the completed trial or
reset the trial status to new and write it to the trials collection keyed
by its id.  Returns the overall result (unit or a propagated exception),
the state of the trial object, and the effect state. -/
def Consumer.consume (c : Consumer) (sys : Sys) (trial : Trial) (s : WState) :
    Except PyErr Unit × Trial × WState :=
  let workdirname := c.workdir sys
  let r := c._consume sys trial workdirname { s with dirs := s.dirs ++ [workdirname] }
  let s3 := removeTree workdirname r.2.2
  match r.1 with
  | .error e => (.error e, r.2.1, s3)
  | .ok (some completed_trial) =>
      (.ok (), r.2.1, { s3 with pushes := s3.pushes ++ [completed_trial] })
  | .ok none =>
      let trial2 := { r.2.1 with status := "new" }
      (.ok (), trial2,
        { s3 with dbWrites := s3.dbWrites ++
            [{ collection := "trials", document := trial2.to_dict,
               queryId := trial2.id }] })

/-! Concrete instances used by witnesses and counterexamples. -/

/-- A small ambient environment for concrete runs. -/
def envBase : String → Option String :=
  fun k => if k = "PATH" then some "/usr/bin" else none

/-- System where the script starts, runs, exits 0 and writes one record. -/
def sysOk : Sys :=
  { osEnviron := envBase,
    dirToken := "d0",
    cfgToken := "c0",
    resToken := "r0",
    build_to := fun cfg _ => ["--x", "3", "--config", cfg],
    popen := fun _ _ => .started none,
    waitResult := 0,
    parse := fun _ => .ok [{ name := "loss", type := "objective", value := .num 42 }] }

/-- System where Popen raises, as for a missing or non-executable script. -/
def sysRaise : Sys := { sysOk with popen := fun _ _ => .raises "FileNotFoundError" }

/-- System where Popen raises with a permission error. -/
def sysRaiseP : Sys := { sysOk with popen := fun _ _ => .raises "PermissionError" }

/-- System where the immediate poll already reports exit code 2. -/
def sysPoll2 : Sys := { sysOk with popen := fun _ _ => .started (some 2) }

/-- System where a fast child has already exited with code 0 at the
immediate poll. -/
def sysPoll0 : Sys := { sysOk with popen := fun _ _ => .started (some 0) }

/-- System where the poll already reports exit code 0 and the results file
fails to parse. -/
def sysPoll0ParseFail : Sys :=
  { sysOk with popen := fun _ _ => .started (some 0),
               parse := fun _ => .error "json decode error" }

/-- System where the process is already dead with a signal-style negative
status at the immediate poll. -/
def sysNeg : Sys := { sysOk with popen := fun _ _ => .started (some (-11)) }

/-- System where the script runs but exits with code 1. -/
def sysExit1 : Sys := { sysOk with waitResult := 1 }

/-- System where the script exits 0 but the results file fails to parse. -/
def sysParseFail : Sys := { sysOk with parse := fun _ => .error "json decode error" }

/-- A concrete experiment with a completed space initialization. -/
def exp0 : Experiment :=
  { name := "exp", space := some { dims := ["x"] }, user_script := "script.py" }

/-- A concrete experiment whose space initialization has not completed. -/
def expNone : Experiment :=
  { name := "exp", space := none, user_script := "script.py" }

/-- A concrete consumer over exp0. -/
def consumer0 : Consumer :=
  { experiment := exp0, space := { dims := ["x"] },
    script := "script.py", tmp_dir := "/tmp/metaopt" }

/-- A concrete reserved trial entering consumption. -/
def trial0 : Trial := { id := "t1", status := "running", results := [] }

/-- A concrete initial effect state with only the base directory. -/
def s0 : WState :=
  { dirs := ["/tmp/metaopt"], files := [], waitCalls := 0, parseCalls := 0,
    popenCmds := [], popenEnvs := [], pushes := [], dbWrites := [] }

/-- The effect state reached just after the Popen call inside _consume. -/
def afterLaunchState (c : Consumer) (sys : Sys) (trial : Trial) (wd : String)
    (s : WState) : WState :=
  { s with files := s.files ++ [(wd, cfgBase sys), (wd, resBase sys)],
           popenCmds := s.popenCmds ++ [Consumer.launchCmdIn c sys trial wd],
           popenEnvs := s.popenEnvs ++ [childEnv sys (resPathIn sys wd)] }

/-! Helper lemmas characterizing the branches of the pipeline. -/

/-- The effect state launch_process returns records exactly the one Popen
call, whatever its outcome. -/
theorem launch_process_state (c : Consumer) (sys : Sys) (rf : String)
    (args : List String) (s : WState) :
    (Consumer.launch_process c sys rf args s).2 =
      { s with popenCmds := s.popenCmds ++ [c.script :: args],
               popenEnvs := s.popenEnvs ++ [childEnv sys rf] } := by
  unfold Consumer.launch_process
  rcases hp : sys.popen (c.script :: args) (childEnv sys rf) with msg | po
  · simp [hp]
  · rcases po with _ | rc
    · simp [hp]
    · simp only [hp]
      split <;> rfl

/-- Branch of _consume where Popen raises: the exception is returned, the
trial is untouched, no wait and no parse happen. -/
theorem consumeAux_of_raises (c : Consumer) (sys : Sys) (trial : Trial) (wd : String)
    (s : WState) (msg : String)
    (h : sys.popen (Consumer.launchCmdIn c sys trial wd)
          (childEnv sys (resPathIn sys wd)) = .raises msg) :
    Consumer._consume c sys trial wd s =
      (.error (.osError msg), trial, afterLaunchState c sys trial wd s) := by
  simp only [Consumer.launchCmdIn] at h
  unfold Consumer._consume Consumer.launch_process
  simp [h, afterLaunchState, Consumer.launchCmdIn]

/-- Branch of _consume where the immediate poll reports a negative status:
the failure sentinel is returned, the trial is untouched, no wait happens. -/
theorem consumeAux_of_negPoll (c : Consumer) (sys : Sys) (trial : Trial) (wd : String)
    (s : WState) (rc : Int)
    (h : sys.popen (Consumer.launchCmdIn c sys trial wd)
          (childEnv sys (resPathIn sys wd)) = .started (some rc))
    (hrc : rc < 0) :
    Consumer._consume c sys trial wd s =
      (.ok none, trial, afterLaunchState c sys trial wd s) := by
  simp only [Consumer.launchCmdIn] at h
  unfold Consumer._consume Consumer.launch_process
  simp [h, hrc, afterLaunchState, Consumer.launchCmdIn]

/-- Branch of _consume where the process runs past the poll and exits with
a nonzero code: wait is called once, the sentinel is returned and the
parser is never invoked. -/
theorem consumeAux_of_nonzero (c : Consumer) (sys : Sys) (trial : Trial) (wd : String)
    (s : WState)
    (h : sys.popen (Consumer.launchCmdIn c sys trial wd)
          (childEnv sys (resPathIn sys wd)) = .started none)
    (h0 : sys.waitResult ≠ 0) :
    Consumer._consume c sys trial wd s =
      (.ok none, trial,
        { afterLaunchState c sys trial wd s with waitCalls := s.waitCalls + 1 }) := by
  simp only [Consumer.launchCmdIn] at h
  unfold Consumer._consume Consumer.launch_process
  simp [h, h0, afterLaunchState, Consumer.launchCmdIn]

/-- Branch of _consume where the process exits 0 but the parser fails: the
parse exception is returned with the trial untouched. -/
theorem consumeAux_of_parseFail (c : Consumer) (sys : Sys) (trial : Trial) (wd : String)
    (s : WState) (msg : String)
    (h : sys.popen (Consumer.launchCmdIn c sys trial wd)
          (childEnv sys (resPathIn sys wd)) = .started none)
    (h0 : sys.waitResult = 0)
    (hp : sys.parse (resPathIn sys wd) = .error msg) :
    Consumer._consume c sys trial wd s =
      (.error (.parseError msg), trial,
        { afterLaunchState c sys trial wd s with
            waitCalls := s.waitCalls + 1, parseCalls := s.parseCalls + 1 }) := by
  simp only [Consumer.launchCmdIn] at h
  unfold Consumer._consume Consumer.launch_process
  simp [h, h0, hp, afterLaunchState, Consumer.launchCmdIn]

/-- Branch of _consume where the process exits 0 and the parser succeeds:
the trial results are filled from the records in order and the populated
trial is returned. -/
theorem consumeAux_of_parseOk (c : Consumer) (sys : Sys) (trial : Trial) (wd : String)
    (s : WState) (recs : List ResRecord)
    (h : sys.popen (Consumer.launchCmdIn c sys trial wd)
          (childEnv sys (resPathIn sys wd)) = .started none)
    (h0 : sys.waitResult = 0)
    (hp : sys.parse (resPathIn sys wd) = .ok recs) :
    Consumer._consume c sys trial wd s =
      (.ok (some { trial with results := recs.map (fun res =>
          { name := res.name, type := res.type, value := res.value }) }),
       { trial with results := recs.map (fun res =>
          { name := res.name, type := res.type, value := res.value }) },
        { afterLaunchState c sys trial wd s with
            waitCalls := s.waitCalls + 1, parseCalls := s.parseCalls + 1 }) := by
  simp only [Consumer.launchCmdIn] at h
  unfold Consumer._consume Consumer.launch_process
  simp [h, h0, hp, afterLaunchState, Consumer.launchCmdIn]

/-- Branch of _consume where the poll already reports a nonnegative nonzero
exit code: the handle is returned, wait delivers that code, the sentinel
is returned and the parser is never invoked. -/
theorem consumeAux_of_polledNonzero (c : Consumer) (sys : Sys) (trial : Trial)
    (wd : String) (s : WState) (rc : Int)
    (h : sys.popen (Consumer.launchCmdIn c sys trial wd)
          (childEnv sys (resPathIn sys wd)) = .started (some rc))
    (h1 : 0 ≤ rc) (h2 : rc ≠ 0) :
    Consumer._consume c sys trial wd s =
      (.ok none, trial,
        { afterLaunchState c sys trial wd s with waitCalls := s.waitCalls + 1 }) := by
  simp only [Consumer.launchCmdIn] at h
  unfold Consumer._consume Consumer.launch_process
  simp [h, not_lt.mpr h1, h2, afterLaunchState, Consumer.launchCmdIn]

/-- Branch of _consume where the poll already reports exit code zero and
the parser fails: the parse exception is returned. -/
theorem consumeAux_of_polledZero_parseFail (c : Consumer) (sys : Sys) (trial : Trial)
    (wd : String) (s : WState) (msg : String)
    (h : sys.popen (Consumer.launchCmdIn c sys trial wd)
          (childEnv sys (resPathIn sys wd)) = .started (some 0))
    (hp : sys.parse (resPathIn sys wd) = .error msg) :
    Consumer._consume c sys trial wd s =
      (.error (.parseError msg), trial,
        { afterLaunchState c sys trial wd s with
            waitCalls := s.waitCalls + 1, parseCalls := s.parseCalls + 1 }) := by
  simp only [Consumer.launchCmdIn] at h
  unfold Consumer._consume Consumer.launch_process
  simp [h, hp, afterLaunchState, Consumer.launchCmdIn]

/-- Branch of _consume where the poll already reports exit code zero and
the parser succeeds: the populated trial is returned. -/
theorem consumeAux_of_polledZero_parseOk (c : Consumer) (sys : Sys) (trial : Trial)
    (wd : String) (s : WState) (recs : List ResRecord)
    (h : sys.popen (Consumer.launchCmdIn c sys trial wd)
          (childEnv sys (resPathIn sys wd)) = .started (some 0))
    (hp : sys.parse (resPathIn sys wd) = .ok recs) :
    Consumer._consume c sys trial wd s =
      (.ok (some { trial with results := recs.map (fun res =>
          { name := res.name, type := res.type, value := res.value }) }),
       { trial with results := recs.map (fun res =>
          { name := res.name, type := res.type, value := res.value }) },
        { afterLaunchState c sys trial wd s with
            waitCalls := s.waitCalls + 1, parseCalls := s.parseCalls + 1 }) := by
  simp only [Consumer.launchCmdIn] at h
  unfold Consumer._consume Consumer.launch_process
  simp [h, hp, afterLaunchState, Consumer.launchCmdIn]

/-- Full characterization of launch_process: the result is decided by the
Popen outcome alone, and the state records the one Popen call. -/
theorem launch_process_eq (c : Consumer) (sys : Sys) (rf : String)
    (args : List String) (s : WState) :
    Consumer.launch_process c sys rf args s =
      ((match sys.popen (c.script :: args) (childEnv sys rf) with
        | .raises msg => .error (.osError msg)
        | .started (some rc) => if rc < 0 then .ok none else .ok (some rc)
        | .started none => .ok (some sys.waitResult)),
       { s with popenCmds := s.popenCmds ++ [c.script :: args],
                popenEnvs := s.popenEnvs ++ [childEnv sys rf] }) := by
  unfold Consumer.launch_process
  rcases hp : sys.popen (c.script :: args) (childEnv sys rf) with msg | po
  · simp [hp]
  · rcases po with _ | rc
    · simp [hp]
    · simp only [hp]
      split <;> simp_all

/-- Frame facts of _consume: it never pushes a trial, never writes to the
database, and never modifies the identity or the status of the trial
object. -/
theorem consumeAux_frame (c : Consumer) (sys : Sys) (trial : Trial) (wd : String)
    (s : WState) :
    (Consumer._consume c sys trial wd s).2.2.pushes = s.pushes ∧
    (Consumer._consume c sys trial wd s).2.2.dbWrites = s.dbWrites ∧
    (Consumer._consume c sys trial wd s).2.1.id = trial.id ∧
    (Consumer._consume c sys trial wd s).2.1.status = trial.status := by
  simp only [Consumer._consume, launch_process_eq]
  rcases hp : sys.popen (c.script :: sys.build_to (cfgPathIn sys wd) trial)
      (childEnv sys (resPathIn sys wd)) with msg | po
  · simp [hp]
  · rcases po with _ | rc
    · by_cases h0 : sys.waitResult = 0
      · rcases hq : sys.parse (resPathIn sys wd) with m | recs <;> simp [hp, h0, hq]
      · simp [hp, h0]
    · by_cases hrc : rc < 0
      · simp [hp, hrc]
      · by_cases h0 : rc = 0
        · rcases hq : sys.parse (resPathIn sys wd) with m | recs <;>
            simp [hp, hrc, h0, hq]
        · simp [hp, hrc, h0]

/-- When _consume returns a populated trial, that trial is the state of the
trial object after the call: the two are the same object. -/
theorem consumeAux_ok_some (c : Consumer) (sys : Sys) (trial : Trial) (wd : String)
    (s : WState) (t : Trial)
    (h : (Consumer._consume c sys trial wd s).1 = .ok (some t)) :
    (Consumer._consume c sys trial wd s).2.1 = t := by
  simp only [Consumer._consume, launch_process_eq] at h ⊢
  rcases hp : sys.popen (c.script :: sys.build_to (cfgPathIn sys wd) trial)
      (childEnv sys (resPathIn sys wd)) with msg | po
  · simp [hp] at h
  · rcases po with _ | rc
    · by_cases h0 : sys.waitResult = 0
      · rcases hq : sys.parse (resPathIn sys wd) with m | recs <;>
          simp [hp, h0, hq] at h ⊢
        exact h
      · simp [hp, h0] at h
    · by_cases hrc : rc < 0
      · simp [hp, hrc] at h
      · by_cases h0 : rc = 0
        · rcases hq : sys.parse (resPathIn sys wd) with m | recs <;>
            simp [hp, hrc, h0, hq] at h ⊢
          exact h
        · simp [hp, hrc, h0] at h

/-- Filtering away a value leaves a list in which that value is absent. -/
theorem filter_ne_all_ne (l : List String) (x : String) :
    ((l.filter (fun d => d != x)).all (fun d => d != x)) = true := by
  simp only [List.all_eq_true]
  intro a ha
  exact (List.mem_filter.mp ha).2

/-- Every element surviving a filter satisfies the filtering predicate. -/
theorem filter_fst_ne_all (l : List (String × String)) (x : String) :
    ((l.filter (fun f => f.1 != x)).all (fun f => f.1 != x)) = true := by
  simp only [List.all_eq_true]
  intro a ha
  exact (List.mem_filter.mp ha).2

/-! Claim theorems. -/

/-- C1 counterexample: at a system where Popen raises a FileNotFoundError,
as happens when the script path does not exist, the exception propagates
out of consume and the trial is not recycled (no database write, no push),
contradicting the claim that every launch failure, including executable
not found and permission denied, is handled as an ordinary trial failure. -/
theorem C1_counterexample :
    (Consumer.consume consumer0 sysRaise trial0 s0).1 =
      .error (.osError "FileNotFoundError") ∧
    (Consumer.consume consumer0 sysRaise trial0 s0).2.2.dbWrites = [] ∧
    (Consumer.consume consumer0 sysRaise trial0 s0).2.2.pushes = [] := by
  refine ⟨rfl, rfl, rfl⟩

/-- C1 (amended): a launch failure detected at the immediate liveness
check, namely a negative signal-style poll status, does not propagate out
of consume: consume returns normally, wait is never called, and the trial
is recycled with a keyed database write.  By contrast an OSError raised by
Popen itself, as for executable not found or permission denied, propagates
out of consume and no store write happens, though the workspace is still
cleaned up. -/
theorem C1_launch_failure (c : Consumer) (sys : Sys) (trial : Trial) (s : WState) :
    (∀ rc : Int,
      sys.popen (Consumer.launchCmdIn c sys trial (Consumer.workdir c sys))
          (childEnv sys (resPathIn sys (Consumer.workdir c sys))) =
        .started (some rc) → rc < 0 →
      (Consumer.consume c sys trial s).1 = .ok () ∧
      (Consumer.consume c sys trial s).2.2.waitCalls = s.waitCalls ∧
      (Consumer.consume c sys trial s).2.1.status = "new" ∧
      (Consumer.consume c sys trial s).2.2.dbWrites =
        s.dbWrites ++ [{ collection := "trials",
                         document := (Consumer.consume c sys trial s).2.1.to_dict,
                         queryId := trial.id }]) ∧
    (∀ msg : String,
      sys.popen (Consumer.launchCmdIn c sys trial (Consumer.workdir c sys))
          (childEnv sys (resPathIn sys (Consumer.workdir c sys))) = .raises msg →
      (Consumer.consume c sys trial s).1 = .error (.osError msg) ∧
      (Consumer.consume c sys trial s).2.2.dbWrites = s.dbWrites ∧
      (Consumer.consume c sys trial s).2.2.pushes = s.pushes ∧
      (Consumer.consume c sys trial s).2.2.waitCalls = s.waitCalls) := by
  constructor
  · intro rc h hrc
    simp only [Consumer.consume]
    rw [consumeAux_of_negPoll c sys trial (Consumer.workdir c sys)
      { s with dirs := s.dirs ++ [Consumer.workdir c sys] } rc h hrc]
    simp [removeTree, afterLaunchState, Trial.to_dict]
  · intro msg h
    simp only [Consumer.consume]
    rw [consumeAux_of_raises c sys trial (Consumer.workdir c sys)
      { s with dirs := s.dirs ++ [Consumer.workdir c sys] } msg h]
    simp [removeTree, afterLaunchState]

/-- C1 witness: the amended theorem applied at a system whose process dies
with signal status -11 at the poll, and at a system where Popen raises a
PermissionError. -/
theorem C1_launch_failure_witness :
    ((Consumer.consume consumer0 sysNeg trial0 s0).1 = .ok () ∧
     (Consumer.consume consumer0 sysNeg trial0 s0).2.2.waitCalls = s0.waitCalls ∧
     (Consumer.consume consumer0 sysNeg trial0 s0).2.1.status = "new" ∧
     (Consumer.consume consumer0 sysNeg trial0 s0).2.2.dbWrites =
       s0.dbWrites ++ [{ collection := "trials",
                         document := (Consumer.consume consumer0 sysNeg trial0 s0).2.1.to_dict,
                         queryId := trial0.id }]) ∧
    ((Consumer.consume consumer0 sysRaiseP trial0 s0).1 =
       .error (.osError "PermissionError") ∧
     (Consumer.consume consumer0 sysRaiseP trial0 s0).2.2.dbWrites = s0.dbWrites ∧
     (Consumer.consume consumer0 sysRaiseP trial0 s0).2.2.pushes = s0.pushes ∧
     (Consumer.consume consumer0 sysRaiseP trial0 s0).2.2.waitCalls = s0.waitCalls) :=
  ⟨(C1_launch_failure consumer0 sysNeg trial0 s0).1 (-11) rfl (by norm_num),
   (C1_launch_failure consumer0 sysRaiseP trial0 s0).2 "PermissionError" rfl⟩

/-- C2: every consume call that returns performs exactly one durable store
write: either the completed trial is pushed and no database write happens,
or one keyed database write of the recycled trial happens and nothing is
pushed. -/
theorem C2_single_disposition (c : Consumer) (sys : Sys) (trial : Trial) (s : WState)
    (h : (Consumer.consume c sys trial s).1 = .ok ()) :
    ((Consumer.consume c sys trial s).2.2.pushes =
        s.pushes ++ [(Consumer.consume c sys trial s).2.1] ∧
      (Consumer.consume c sys trial s).2.2.dbWrites = s.dbWrites) ∨
    ((Consumer.consume c sys trial s).2.2.dbWrites =
        s.dbWrites ++ [{ collection := "trials",
                         document := (Consumer.consume c sys trial s).2.1.to_dict,
                         queryId := (Consumer.consume c sys trial s).2.1.id }] ∧
      (Consumer.consume c sys trial s).2.2.pushes = s.pushes) := by
  simp only [Consumer.consume] at h ⊢
  rcases hr : (Consumer._consume c sys trial (Consumer.workdir c sys)
      { s with dirs := s.dirs ++ [Consumer.workdir c sys] }).1 with e | ot
  · simp [hr] at h
  · rcases ot with _ | t
    · right
      have hf := consumeAux_frame c sys trial (Consumer.workdir c sys)
        { s with dirs := s.dirs ++ [Consumer.workdir c sys] }
      simp [hr, removeTree, hf.1, hf.2.1]
    · left
      have hf := consumeAux_frame c sys trial (Consumer.workdir c sys)
        { s with dirs := s.dirs ++ [Consumer.workdir c sys] }
      have ht := consumeAux_ok_some c sys trial (Consumer.workdir c sys)
        { s with dirs := s.dirs ++ [Consumer.workdir c sys] } t hr
      simp [hr, removeTree, hf.1, hf.2.1, ht]

/-- C2 witness: the single disposition theorem applied at a successful
concrete run. -/
theorem C2_single_disposition_witness :
    ((Consumer.consume consumer0 sysOk trial0 s0).2.2.pushes =
        s0.pushes ++ [(Consumer.consume consumer0 sysOk trial0 s0).2.1] ∧
      (Consumer.consume consumer0 sysOk trial0 s0).2.2.dbWrites = s0.dbWrites) ∨
    ((Consumer.consume consumer0 sysOk trial0 s0).2.2.dbWrites =
        s0.dbWrites ++ [{ collection := "trials",
                          document := (Consumer.consume consumer0 sysOk trial0 s0).2.1.to_dict,
                          queryId := (Consumer.consume consumer0 sysOk trial0 s0).2.1.id }] ∧
      (Consumer.consume consumer0 sysOk trial0 s0).2.2.pushes = s0.pushes) :=
  C2_single_disposition consumer0 sysOk trial0 s0 rfl

/-- C3: for every consumption attempt and every exit path of consume, the
workspace directory and every file inside it, in particular the config
file and the results file, are absent from the final state, whether
consume returns normally or an exception escapes. -/
theorem C3_workspace_cleanup (c : Consumer) (sys : Sys) (trial : Trial) (s : WState) :
    ((Consumer.consume c sys trial s).2.2.dirs.all
        (fun d => d != Consumer.workdir c sys)) = true ∧
    ((Consumer.consume c sys trial s).2.2.files.all
        (fun f => f.1 != Consumer.workdir c sys)) = true := by
  simp only [Consumer.consume]
  rcases hr : (Consumer._consume c sys trial (Consumer.workdir c sys)
      { s with dirs := s.dirs ++ [Consumer.workdir c sys] }).1 with e | ot
  · simp [hr, removeTree, filter_ne_all_ne, filter_fst_ne_all]
  · rcases ot with _ | t <;>
      simp [hr, removeTree, filter_ne_all_ne, filter_fst_ne_all]

/-- C4: for every launched process that exits, _consume invokes the result
parser if and only if the exit code is zero, and on a nonzero exit code it
returns the failure sentinel; this holds both when the process is still
running at the poll (wait then yields the exit code) and when the poll
already reports a nonnegative exit code. -/
theorem C4_parse_iff_exit_zero (c : Consumer) (sys : Sys) (trial : Trial)
    (wd : String) (s : WState) :
    (sys.popen (Consumer.launchCmdIn c sys trial wd)
        (childEnv sys (resPathIn sys wd)) = .started none →
      (((Consumer._consume c sys trial wd s).2.2.parseCalls = s.parseCalls + 1) ↔
        sys.waitResult = 0) ∧
      (sys.waitResult ≠ 0 → (Consumer._consume c sys trial wd s).1 = .ok none)) ∧
    (∀ rc : Int, 0 ≤ rc →
      sys.popen (Consumer.launchCmdIn c sys trial wd)
          (childEnv sys (resPathIn sys wd)) = .started (some rc) →
      (((Consumer._consume c sys trial wd s).2.2.parseCalls = s.parseCalls + 1) ↔
        rc = 0) ∧
      (rc ≠ 0 → (Consumer._consume c sys trial wd s).1 = .ok none)) := by
  constructor
  · intro h
    by_cases h0 : sys.waitResult = 0
    · rcases hq : sys.parse (resPathIn sys wd) with m | recs
      · rw [consumeAux_of_parseFail c sys trial wd s m h h0 hq]
        simp [afterLaunchState, h0]
      · rw [consumeAux_of_parseOk c sys trial wd s recs h h0 hq]
        simp [afterLaunchState, h0]
    · rw [consumeAux_of_nonzero c sys trial wd s h h0]
      simp [afterLaunchState, h0]
  · intro rc hge h
    by_cases h0 : rc = 0
    · subst h0
      rcases hq : sys.parse (resPathIn sys wd) with m | recs
      · rw [consumeAux_of_polledZero_parseFail c sys trial wd s m h hq]
        simp [afterLaunchState]
      · rw [consumeAux_of_polledZero_parseOk c sys trial wd s recs h hq]
        simp [afterLaunchState]
    · rw [consumeAux_of_polledNonzero c sys trial wd s rc h hge h0]
      simp [afterLaunchState, h0]

/-- C4 witness: the exit code policy applied at a run that exits zero
after the poll and at a run whose poll already reports exit code 2. -/
theorem C4_parse_iff_exit_zero_witness :
    ((((Consumer._consume consumer0 sysOk trial0 "/tmp/metaopt/exp_d0" s0).2.2.parseCalls =
        s0.parseCalls + 1) ↔ sysOk.waitResult = 0) ∧
     (sysOk.waitResult ≠ 0 →
       (Consumer._consume consumer0 sysOk trial0 "/tmp/metaopt/exp_d0" s0).1 = .ok none)) ∧
    ((((Consumer._consume consumer0 sysPoll2 trial0 "/tmp/metaopt/exp_d0" s0).2.2.parseCalls =
        s0.parseCalls + 1) ↔ (2 : Int) = 0) ∧
     ((2 : Int) ≠ 0 →
       (Consumer._consume consumer0 sysPoll2 trial0 "/tmp/metaopt/exp_d0" s0).1 = .ok none)) :=
  ⟨(C4_parse_iff_exit_zero consumer0 sysOk trial0 "/tmp/metaopt/exp_d0" s0).1 rfl,
   (C4_parse_iff_exit_zero consumer0 sysPoll2 trial0 "/tmp/metaopt/exp_d0" s0).2 2
     (by norm_num) rfl⟩

/-- C5: when the pipeline result is the failure sentinel, consume sets the
trial status to new and persists the trial by one write to the trials
collection keyed by the id of that trial. -/
theorem C5_recycle_write (c : Consumer) (sys : Sys) (trial : Trial) (s : WState)
    (h : (Consumer._consume c sys trial (Consumer.workdir c sys)
          { s with dirs := s.dirs ++ [Consumer.workdir c sys] }).1 = .ok none) :
    (Consumer.consume c sys trial s).2.1.status = "new" ∧
    (Consumer.consume c sys trial s).2.2.dbWrites =
      s.dbWrites ++ [{ collection := "trials",
                       document := (Consumer.consume c sys trial s).2.1.to_dict,
                       queryId := trial.id }] := by
  have hf := consumeAux_frame c sys trial (Consumer.workdir c sys)
    { s with dirs := s.dirs ++ [Consumer.workdir c sys] }
  simp only [Consumer.consume]
  simp [h, removeTree, hf.2.1, hf.2.2.1]

/-- C5 witness: the recycle write applied at a run whose script exits with
code 1. -/
theorem C5_recycle_write_witness :
    (Consumer.consume consumer0 sysExit1 trial0 s0).2.1.status = "new" ∧
    (Consumer.consume consumer0 sysExit1 trial0 s0).2.2.dbWrites =
      s0.dbWrites ++ [{ collection := "trials",
                        document := (Consumer.consume consumer0 sysExit1 trial0 s0).2.1.to_dict,
                        queryId := trial0.id }] :=
  C5_recycle_write consumer0 sysExit1 trial0 s0 rfl

/-- C6: for every run in which the child exits zero, whether it is still
running at the immediate poll and wait later yields 0, or it has already
exited and the poll reports 0 directly, a failure of the result parser
propagates out of consume to the caller instead of being caught inside
the pipeline. -/
theorem C6_parse_error_propagates (c : Consumer) (sys : Sys) (trial : Trial)
    (s : WState) (msg : String)
    (hz : (sys.popen (Consumer.launchCmdIn c sys trial (Consumer.workdir c sys))
            (childEnv sys (resPathIn sys (Consumer.workdir c sys))) = .started none ∧
           sys.waitResult = 0) ∨
          sys.popen (Consumer.launchCmdIn c sys trial (Consumer.workdir c sys))
            (childEnv sys (resPathIn sys (Consumer.workdir c sys))) = .started (some 0))
    (h3 : sys.parse (resPathIn sys (Consumer.workdir c sys)) = .error msg) :
    (Consumer.consume c sys trial s).1 = .error (.parseError msg) := by
  rcases hz with ⟨h1, h2⟩ | h1
  · simp only [Consumer.consume]
    rw [consumeAux_of_parseFail c sys trial (Consumer.workdir c sys)
      { s with dirs := s.dirs ++ [Consumer.workdir c sys] } msg h1 h2 h3]
  · simp only [Consumer.consume]
    rw [consumeAux_of_polledZero_parseFail c sys trial (Consumer.workdir c sys)
      { s with dirs := s.dirs ++ [Consumer.workdir c sys] } msg h1 h3]

/-- C6 witness: the propagation theorem applied at a run whose results
file is malformed, once with the child still running at the poll and once
with the poll already reporting exit code 0. -/
theorem C6_parse_error_propagates_witness :
    (Consumer.consume consumer0 sysParseFail trial0 s0).1 =
      .error (.parseError "json decode error") ∧
    (Consumer.consume consumer0 sysPoll0ParseFail trial0 s0).1 =
      .error (.parseError "json decode error") :=
  ⟨C6_parse_error_propagates consumer0 sysParseFail trial0 s0 "json decode error"
     (Or.inl ⟨rfl, rfl⟩) rfl,
   C6_parse_error_propagates consumer0 sysPoll0ParseFail trial0 s0 "json decode error"
     (Or.inr rfl) rfl⟩

/-- C7: every launch hands Popen the command consisting of the user script
followed by the rendered arguments, together with an environment equal to
the parent environment extended at exactly the key METAOPT_RESULTS_PATH,
whose value is the allocated results file path; every other key reads the
parent value. -/
theorem C7_child_env_and_command (c : Consumer) (sys : Sys) (rf : String)
    (args : List String) (s : WState) :
    (Consumer.launch_process c sys rf args s).2.popenCmds =
      s.popenCmds ++ [c.script :: args] ∧
    (Consumer.launch_process c sys rf args s).2.popenEnvs =
      s.popenEnvs ++ [childEnv sys rf] ∧
    childEnv sys rf "METAOPT_RESULTS_PATH" = some rf ∧
    (∀ k : String, k ≠ "METAOPT_RESULTS_PATH" → childEnv sys rf k = sys.osEnviron k) := by
  have hs := launch_process_state c sys rf args s
  refine ⟨by simp [hs], by simp [hs], by simp [childEnv], ?_⟩
  intro k hk
  simp [childEnv, hk]

/-- C7 witness: the environment and command contract applied at a concrete
launch, read back at the injected key and at the PATH key. -/
theorem C7_child_env_and_command_witness :
    (Consumer.launch_process consumer0 sysOk "/tmp/metaopt/exp_d0/results_r0.log"
        ["--x"] s0).2.popenCmds = s0.popenCmds ++ [consumer0.script :: ["--x"]] ∧
    (Consumer.launch_process consumer0 sysOk "/tmp/metaopt/exp_d0/results_r0.log"
        ["--x"] s0).2.popenEnvs =
      s0.popenEnvs ++ [childEnv sysOk "/tmp/metaopt/exp_d0/results_r0.log"] ∧
    childEnv sysOk "/tmp/metaopt/exp_d0/results_r0.log" "METAOPT_RESULTS_PATH" =
      some "/tmp/metaopt/exp_d0/results_r0.log" ∧
    childEnv sysOk "/tmp/metaopt/exp_d0/results_r0.log" "PATH" = sysOk.osEnviron "PATH" :=
  ⟨(C7_child_env_and_command consumer0 sysOk "/tmp/metaopt/exp_d0/results_r0.log"
      ["--x"] s0).1,
   (C7_child_env_and_command consumer0 sysOk "/tmp/metaopt/exp_d0/results_r0.log"
      ["--x"] s0).2.1,
   (C7_child_env_and_command consumer0 sysOk "/tmp/metaopt/exp_d0/results_r0.log"
      ["--x"] s0).2.2.1,
   (C7_child_env_and_command consumer0 sysOk "/tmp/metaopt/exp_d0/results_r0.log"
      ["--x"] s0).2.2.2 "PATH" (by decide)⟩

/-- C8: whenever _consume returns the failure sentinel (launch failure or
nonzero exit), the trial object is left exactly as it was: neither its
status nor its results were touched. -/
theorem C8_failure_leaves_trial_unmutated (c : Consumer) (sys : Sys) (trial : Trial)
    (wd : String) (s : WState)
    (h : (Consumer._consume c sys trial wd s).1 = .ok none) :
    (Consumer._consume c sys trial wd s).2.1 = trial := by
  simp only [Consumer._consume, launch_process_eq] at h ⊢
  rcases hp : sys.popen (c.script :: sys.build_to (cfgPathIn sys wd) trial)
      (childEnv sys (resPathIn sys wd)) with msg | po
  · simp [hp] at h
  · rcases po with _ | rc
    · by_cases h0 : sys.waitResult = 0
      · rcases hq : sys.parse (resPathIn sys wd) with m | recs <;>
          simp [hp, h0, hq] at h
      · simp [hp, h0]
    · by_cases hrc : rc < 0
      · simp [hp, hrc]
      · by_cases h0 : rc = 0
        · rcases hq : sys.parse (resPathIn sys wd) with m | recs <;>
            simp [hp, hrc, h0, hq] at h
        · simp [hp, hrc, h0]

/-- C8 witness: the frame condition applied at a run whose script exits
with code 1. -/
theorem C8_failure_leaves_trial_unmutated_witness :
    (Consumer._consume consumer0 sysExit1 trial0 "/tmp/metaopt/exp_d0" s0).2.1 = trial0 :=
  C8_failure_leaves_trial_unmutated consumer0 sysExit1 trial0 "/tmp/metaopt/exp_d0" s0 rfl

/-- C9 counterexample: at a concrete committed run (exit code zero, one
well-formed record) the returned trial carries the parsed results and is
pushed, yet its status is unchanged at running rather than advanced: the
pipeline itself never advances the status. -/
theorem C9_counterexample :
    (Consumer.consume consumer0 sysOk trial0 s0).1 = .ok () ∧
    (Consumer.consume consumer0 sysOk trial0 s0).2.2.pushes =
      [(Consumer.consume consumer0 sysOk trial0 s0).2.1] ∧
    (Consumer.consume consumer0 sysOk trial0 s0).2.1.results =
      [{ name := "loss", type := "objective", value := .num 42 }] ∧
    trial0.status = "running" ∧
    (Consumer.consume consumer0 sysOk trial0 s0).2.1.status = "running" :=
  ⟨rfl, rfl, rfl, rfl, rfl⟩

/-- C9 (amended): when the child exits zero with a well-formed results
file holding at least one record, the returned trial has its results
sequence non-empty, containing exactly one result per parsed record with
the same name, type and value, in file order; its status is left
unchanged by the pipeline, advancement being delegated to the external
push_completed_trial collaborator. -/
theorem C9_commit_results (c : Consumer) (sys : Sys) (trial : Trial) (s : WState)
    (recs : List ResRecord)
    (hz : (sys.popen (Consumer.launchCmdIn c sys trial (Consumer.workdir c sys))
            (childEnv sys (resPathIn sys (Consumer.workdir c sys))) = .started none ∧
           sys.waitResult = 0) ∨
          sys.popen (Consumer.launchCmdIn c sys trial (Consumer.workdir c sys))
            (childEnv sys (resPathIn sys (Consumer.workdir c sys))) = .started (some 0))
    (h3 : sys.parse (resPathIn sys (Consumer.workdir c sys)) = .ok recs)
    (h4 : recs ≠ []) :
    (Consumer.consume c sys trial s).1 = .ok () ∧
    (Consumer.consume c sys trial s).2.1.results =
      recs.map (fun res => { name := res.name, type := res.type, value := res.value }) ∧
    (Consumer.consume c sys trial s).2.1.results ≠ [] ∧
    (Consumer.consume c sys trial s).2.1.status = trial.status := by
  rcases hz with ⟨h1, h2⟩ | h1
  · simp only [Consumer.consume]
    rw [consumeAux_of_parseOk c sys trial (Consumer.workdir c sys)
      { s with dirs := s.dirs ++ [Consumer.workdir c sys] } recs h1 h2 h3]
    simp [h4]
  · simp only [Consumer.consume]
    rw [consumeAux_of_polledZero_parseOk c sys trial (Consumer.workdir c sys)
      { s with dirs := s.dirs ++ [Consumer.workdir c sys] } recs h1 h3]
    simp [h4]

/-- C9 witness: the amended commit theorem applied at the concrete
successful run with one parsed record, once with the child still running
at the poll and once with the poll already reporting exit code 0. -/
theorem C9_commit_results_witness :
    ((Consumer.consume consumer0 sysOk trial0 s0).1 = .ok () ∧
     (Consumer.consume consumer0 sysOk trial0 s0).2.1.results =
       ([{ name := "loss", type := "objective", value := .num 42 }] : List ResRecord).map
         (fun res => { name := res.name, type := res.type, value := res.value }) ∧
     (Consumer.consume consumer0 sysOk trial0 s0).2.1.results ≠ [] ∧
     (Consumer.consume consumer0 sysOk trial0 s0).2.1.status = trial0.status) ∧
    ((Consumer.consume consumer0 sysPoll0 trial0 s0).1 = .ok () ∧
     (Consumer.consume consumer0 sysPoll0 trial0 s0).2.1.results =
       ([{ name := "loss", type := "objective", value := .num 42 }] : List ResRecord).map
         (fun res => { name := res.name, type := res.type, value := res.value }) ∧
     (Consumer.consume consumer0 sysPoll0 trial0 s0).2.1.results ≠ [] ∧
     (Consumer.consume consumer0 sysPoll0 trial0 s0).2.1.status = trial0.status) :=
  ⟨C9_commit_results consumer0 sysOk trial0 s0
     [{ name := "loss", type := "objective", value := .num 42 }]
     (Or.inl ⟨rfl, rfl⟩) rfl (by simp),
   C9_commit_results consumer0 sysPoll0 trial0 s0
     [{ name := "loss", type := "objective", value := .num 42 }]
     (Or.inr rfl) rfl (by simp)⟩

/-- C10: constructing a consumer over an experiment whose space is none
raises RuntimeError before any base directory is created (the directory
list is returned unchanged), while an experiment with a present space
passes the check and construction returns the consumer. -/
theorem C10_space_check (experiment : Experiment) (tmpRoot : String)
    (dirs : List String) :
    (experiment.space = none →
      Consumer.init experiment tmpRoot dirs =
        (.error (.runtimeError
          "Experiment object provided to Consumer has not yet completed initialization."),
         dirs)) ∧
    (∀ sp : Space, experiment.space = some sp →
      (Consumer.init experiment tmpRoot dirs).1 =
        .ok { experiment := experiment, space := sp,
              script := experiment.user_script, tmp_dir := tmpRoot ++ "/metaopt" }) := by
  constructor
  · intro h
    simp [Consumer.init, h]
  · intro sp h
    simp [Consumer.init, h]

/-- C10 witness: the construction check applied at an experiment without a
space and at an experiment with one. -/
theorem C10_space_check_witness :
    (Consumer.init expNone "/tmp" [] =
      (.error (.runtimeError
        "Experiment object provided to Consumer has not yet completed initialization."),
       ([] : List String))) ∧
    ((Consumer.init exp0 "/tmp" []).1 =
      .ok { experiment := exp0, space := { dims := ["x"] },
            script := exp0.user_script, tmp_dir := "/tmp" ++ "/metaopt" }) :=
  ⟨(C10_space_check expNone "/tmp" []).1 rfl,
   (C10_space_check exp0 "/tmp" []).2 { dims := ["x"] } rfl⟩

end MetaOpt
